import Mathlib

/-!
Verification of the UCL match-prediction data pipeline
(`src/ml/python/data_extraction.py`, `src/ml/python/utils/feature_engineering.py`,
`src/ml/python/models/match_predictor.py`).

Matches are modelled as records over exact rationals (the Python code performs
float arithmetic only through comparisons and sums on these fields), dates as
naturals (only their ordering is used), and ELO ratings as real numbers
(the ELO expected score uses the real power `10 ** x`).
-/

namespace UCL

/-- A row of the `matches` table as fetched by `UCLDataExtractor.fetch_matches`. -/
structure MatchRow where
  homeTeam : String
  awayTeam : String
  date : Nat
  status : String
  homeWinProb : ℚ
  drawProb : ℚ
  awayWinProb : ℚ
  homeXg : ℚ
  awayXg : ℚ
deriving DecidableEq

/-- Python's `df.tail(n)`: the last `n` rows of a list. -/
def tailN (l : List α) (n : Nat) : List α := l.drop (l.length - n)

/-- Python's `int()` on a rational value: truncation toward zero. -/
def pyInt (q : ℚ) : ℤ := if 0 ≤ q then ⌊q⌋ else ⌈q⌉

/-- The per-match form-point rule of `calculate_team_form`
(`data_extraction.py` lines 166-184): 3/0/1 by comparing the team's own
win probability with the opponent's win probability only. -/
def form_point (teamProb oppProb : ℚ) : ℕ :=
  if teamProb > oppProb then 3 else if teamProb < oppProb then 0 else 1

/-- Result record of `UCLDataExtractor.calculate_team_form`. -/
structure FormResult where
  form : ℚ
  goals : ℤ
  xg : ℚ
  possession : ℚ
deriving DecidableEq

/-- `UCLDataExtractor.calculate_team_form` (`data_extraction.py` lines 133-195). -/
def calculate_team_form (team : String) (matches_df : List MatchRow)
    (before_date : Nat) (n_matches : Nat := 5) : FormResult :=
  let team_matches := tailN (matches_df.filter (fun m =>
      decide ((m.homeTeam = team ∨ m.awayTeam = team) ∧
        m.date < before_date ∧ m.status = "FINISHED"))) n_matches
  if team_matches.length = 0 then
    { form := 1.5, goals := 5, xg := 5.0, possession := 50 }
  else
    let form_points := team_matches.map (fun m =>
      if m.homeTeam = team then form_point m.homeWinProb m.awayWinProb
      else form_point m.awayWinProb m.homeWinProb)
    let goals : ℚ := (team_matches.map (fun m =>
      if m.homeTeam = team then m.homeXg else m.awayXg)).sum
    let xg : ℚ := (team_matches.map (fun m =>
      if m.homeTeam = team then m.homeXg else m.awayXg)).sum
    let possession : List ℚ := team_matches.map (fun m =>
      if m.homeTeam = team then (55 : ℚ) else 45)
    { form := if form_points.length = 0 then 1.5
        else (form_points.map (fun p => (p : ℚ))).sum / (form_points.length : ℚ),
      goals := pyInt goals,
      xg := xg,
      possession := if possession.length = 0 then 50
        else possession.sum / (possession.length : ℚ) }

/-- Result record of `UCLDataExtractor.calculate_h2h_stats`. -/
structure H2HStats where
  home_wins : ℕ
  draws : ℕ
  away_wins : ℕ
deriving DecidableEq

/-- The row filter of `calculate_h2h_stats` (`data_extraction.py` lines 200-205). -/
def h2hCond (home_team away_team : String) (before_date : Nat) (m : MatchRow) : Prop :=
  ((m.homeTeam = home_team ∧ m.awayTeam = away_team) ∨
   (m.homeTeam = away_team ∧ m.awayTeam = home_team)) ∧
  m.date < before_date ∧ m.status = "FINISHED"

instance (home_team away_team : String) (before_date : Nat) (m : MatchRow) :
    Decidable (h2hCond home_team away_team before_date m) := by
  unfold h2hCond; infer_instance

/-- The loop body of `calculate_h2h_stats` (`data_extraction.py` lines 214-228). -/
def h2h_step (home_team : String) (acc : H2HStats) (m : MatchRow) : H2HStats :=
  if m.homeTeam = home_team then
    if m.homeWinProb > m.awayWinProb then { acc with home_wins := acc.home_wins + 1 }
    else if m.homeWinProb < m.awayWinProb then { acc with away_wins := acc.away_wins + 1 }
    else { acc with draws := acc.draws + 1 }
  else
    if m.awayWinProb > m.homeWinProb then { acc with home_wins := acc.home_wins + 1 }
    else if m.awayWinProb < m.homeWinProb then { acc with away_wins := acc.away_wins + 1 }
    else { acc with draws := acc.draws + 1 }

/-- `UCLDataExtractor.calculate_h2h_stats` (`data_extraction.py` lines 197-234). -/
def calculate_h2h_stats (home_team away_team : String) (matches_df : List MatchRow)
    (before_date : Nat) : H2HStats :=
  let h2h := matches_df.filter (fun m => decide (h2hCond home_team away_team before_date m))
  if h2h.length = 0 then ⟨0, 0, 0⟩
  else h2h.foldl (h2h_step home_team) ⟨0, 0, 0⟩

/-- The outcome-label rule of `prepare_training_data`
(`data_extraction.py` lines 315-324): 0 = home win, 1 = draw, 2 = away win. -/
def labelOf (m : MatchRow) : ℕ :=
  if m.homeWinProb > m.awayWinProb ∧ m.homeWinProb > m.drawProb then 0
  else if m.awayWinProb > m.homeWinProb ∧ m.awayWinProb > m.drawProb then 2
  else 1

/-- The score inference of `calculate_elo_ratings`
(`data_extraction.py` lines 118-124): the same strict-maximum comparison as the
label rule, mapped to the synthetic scores (2,1), (1,2) or (1,1). -/
def winner_scores (m : MatchRow) : ℚ × ℚ :=
  if m.homeWinProb > m.awayWinProb ∧ m.homeWinProb > m.drawProb then (2, 1)
  else if m.awayWinProb > m.homeWinProb ∧ m.awayWinProb > m.drawProb then (1, 2)
  else (1, 1)

/-- The 18 feature names written by `data_extraction.main` (lines 367-376). -/
def extraction_feature_names : List String :=
  ["home_elo", "away_elo", "elo_diff",
   "home_form_last5", "away_form_last5",
   "home_goals_last5", "away_goals_last5",
   "home_xg_last5", "away_xg_last5",
   "h2h_home_wins", "h2h_draws", "h2h_away_wins",
   "home_possession_avg", "away_possession_avg",
   "venue_advantage", "stage_importance",
   "home_rest_days", "away_rest_days"]

/-- `MatchOutcomePredictor.feature_names` (`match_predictor.py` lines 25-40). -/
def predictor_feature_names : List String :=
  ["home_elo", "away_elo", "elo_diff",
   "home_form_last5", "away_form_last5",
   "home_goals_last5", "away_goals_last5",
   "home_xg_last5", "away_xg_last5",
   "h2h_home_wins", "h2h_draws", "h2h_away_wins",
   "home_possession_avg", "away_possession_avg",
   "venue_advantage", "stage_importance",
   "home_rest_days", "away_rest_days",
   "elo_gap_magnitude", "underdog_factor",
   "quality_tier_home", "quality_tier_away",
   "strength_adjusted_venue"]

/-- Following the spec's words (section 4.3 with section 4.1): form points 3/1/0
decided by the three-way strict-maximum outcome rule over the probability fields,
here from the home team's perspective. Used only to compare against the code's
`form_point` rule. -/
def spec41_form_point_home (m : MatchRow) : ℕ :=
  if labelOf m = 0 then 3 else if labelOf m = 1 then 1 else 0

noncomputable section

/-- `ELOSystem` (`feature_engineering.py` lines 10-26): K-factor, initial rating,
and the `defaultdict` of team ratings, modelled as a total function that is
`initial_rating` on every team not yet updated. -/
structure ELOSystem where
  k_factor : ℝ
  initial_rating : ℝ
  ratings : String → ℝ

/-- `ELOSystem.__init__`: fresh system with every team at the initial rating. -/
def ELOSystem.mk0 (k_factor initial_rating : ℝ) : ELOSystem :=
  ⟨k_factor, initial_rating, fun _ => initial_rating⟩

/-- `ELOSystem.expected_score` (`feature_engineering.py` line 39). -/
def expected_score (rating_a rating_b : ℝ) : ℝ :=
  1 / (1 + (10 : ℝ) ^ ((rating_b - rating_a) / 400))

/-- `ELOSystem.update_ratings` (`feature_engineering.py` lines 41-85): returns
the mutated system together with `(new_rating_a, new_rating_b)`. The stored
rating of `team_a` is written first, then that of `team_b`, as in the source. -/
def ELOSystem.update_ratings (sys : ELOSystem) (team_a team_b : String)
    (score_a score_b : ℚ) (home_advantage : ℝ := 100) : ELOSystem × ℝ × ℝ :=
  let rating_a := sys.ratings team_a + home_advantage
  let rating_b := sys.ratings team_b
  let expected_a := expected_score rating_a rating_b
  let expected_b := 1 - expected_a
  let actual : ℝ × ℝ :=
    if score_a > score_b then (1, 0)
    else if score_a < score_b then (0, 1)
    else (0.5, 0.5)
  let new_rating_a := sys.ratings team_a + sys.k_factor * (actual.1 - expected_a)
  let new_rating_b := sys.ratings team_b + sys.k_factor * (actual.2 - expected_b)
  ({ sys with ratings := fun t =>
      if t = team_b then new_rating_b
      else if t = team_a then new_rating_a
      else sys.ratings t },
   new_rating_a, new_rating_b)

/-- One iteration of the loop in `calculate_elo_ratings`
(`data_extraction.py` lines 105-127): skip non-finished rows, otherwise infer
scores from the probabilities and update the ELO system (default home advantage). -/
def elo_step (elo : ELOSystem) (m : MatchRow) : ELOSystem :=
  if m.status ≠ "FINISHED" then elo
  else (elo.update_ratings m.homeTeam m.awayTeam (winner_scores m).1 (winner_scores m).2).1

/-- `UCLDataExtractor.calculate_elo_ratings` (`data_extraction.py` lines 90-131):
fold the rows in the given order over a fresh `ELOSystem(k_factor=20,
initial_rating=1500)` and return the final rating map. -/
def calculate_elo_ratings (matches_df : List MatchRow) : String → ℝ :=
  (matches_df.foldl elo_step (ELOSystem.mk0 20 1500)).ratings

/-- The 18-entry feature list built for one match by `prepare_training_data`
(`data_extraction.py` lines 291-310). -/
def feature_vector (m : MatchRow) (elo_ratings : String → ℝ)
    (finished_matches : List MatchRow) : List ℝ :=
  let home_elo := elo_ratings m.homeTeam
  let away_elo := elo_ratings m.awayTeam
  let home_form := calculate_team_form m.homeTeam finished_matches m.date
  let away_form := calculate_team_form m.awayTeam finished_matches m.date
  let h2h := calculate_h2h_stats m.homeTeam m.awayTeam finished_matches m.date
  [home_elo, away_elo, home_elo - away_elo,
   (home_form.form : ℝ), (away_form.form : ℝ),
   (home_form.goals : ℝ), (away_form.goals : ℝ),
   (home_form.xg : ℝ), (away_form.xg : ℝ),
   (h2h.home_wins : ℝ), (h2h.draws : ℝ), (h2h.away_wins : ℝ),
   (home_form.possession : ℝ), (away_form.possession : ℝ),
   1, 8, 4, 4]

/-- The four arrays returned by `prepare_training_data`. -/
structure TrainingData where
  X : List (List ℝ)
  y_outcome : List ℕ
  y_xg_home : List ℚ
  y_xg_away : List ℚ

/-- `UCLDataExtractor.prepare_training_data` (`data_extraction.py` lines 236-343)
on an already-fetched list of rows: filter to finished matches, return `none`
(the `(None, None, None, None)` insufficiency signal) when fewer than 10 remain,
otherwise compute the converged ELO map once and build features and labels for
every finished match. -/
def prepare_training_data (matches_df : List MatchRow) : Option TrainingData :=
  let finished_matches := matches_df.filter (fun m => decide (m.status = "FINISHED"))
  if finished_matches.length < 10 then none
  else
    let elo_ratings := calculate_elo_ratings finished_matches
    some { X := finished_matches.map (fun m => feature_vector m elo_ratings finished_matches),
           y_outcome := finished_matches.map labelOf,
           y_xg_home := finished_matches.map (fun m => m.homeXg),
           y_xg_away := finished_matches.map (fun m => m.awayXg) }

end

/-- A finished match in which home side `"A"` beats away side `"B"`
(home win probability strictly greatest), at the given date. -/
def leakMatch (i : Nat) : MatchRow :=
  ⟨"A", "B", i, "FINISHED", 7, 2, 1, 1, 1⟩

/-- Ten finished `"A"` home-win matches at dates 1..10: enough rows for
`prepare_training_data` to build a dataset. -/
def leakHistory : List MatchRow := (List.range 10).map (fun i => leakMatch (i + 1))

/-- Nine finished matches: one fewer than the training minimum. -/
def nineHistory : List MatchRow := (List.range 9).map (fun i => leakMatch (i + 1))

/-- A finished match of `"A"` (home) against `"C"` (away), won by `"A"`. -/
def mAC : MatchRow := ⟨"A", "C", 2, "FINISHED", 7, 2, 1, 1, 1⟩

/-- The first leak match, with date 1: `"A"` (home) beats `"B"` (away). -/
def mAB : MatchRow := leakMatch 1

/-- A finished match whose draw probability is strictly greatest while the home
win probability still exceeds the away win probability. -/
def drawishMatch : MatchRow := ⟨"A", "B", 1, "FINISHED", 4, 5, 1, 1, 1⟩

/-- A finished match won by away side `"A"` at `"B"`'s ground. -/
def mBA : MatchRow := ⟨"B", "A", 2, "FINISHED", 1, 1, 2, 1, 1⟩

/-- A two-meeting head-to-head history between `"A"` and `"B"` in which each
team won once, once as home side and once as away side. -/
def h2hHistory : List MatchRow := [leakMatch 1, mBA]

/-- A finished match lost by the home side `"A"`. -/
def awayWinMatch : MatchRow := ⟨"A", "B", 1, "FINISHED", 1, 1, 3, 1, 1⟩

/-- The matches of `leakHistory` are all finished home wins of `"A"` over `"B"`. -/
abbrev HomeWinAB (m : MatchRow) : Prop :=
  m.status = "FINISHED" ∧ m.homeTeam = "A" ∧ m.awayTeam = "B" ∧
  m.homeWinProb > m.awayWinProb ∧ m.homeWinProb > m.drawProb

theorem form_point_gt {p q : ℚ} (h : p > q) : form_point p q = 3 := by
  unfold form_point; rw [if_pos h]

theorem form_point_lt {p q : ℚ} (h : p < q) : form_point p q = 0 := by
  unfold form_point; rw [if_neg (lt_asymm h), if_pos h]

theorem form_point_eq {p q : ℚ} (h : p = q) : form_point p q = 1 := by
  unfold form_point; rw [if_neg (by simp [h]), if_neg (by simp [h])]

/-- Claim C4: the training label is 0 (home win) iff the home probability is
strictly greater than both the draw and away probabilities, 2 (away win) iff the
away probability is strictly greater than both others, and 1 (draw) in every
remaining case, including when the draw probability is strictly greatest and
when no field is strictly greatest. -/
theorem outcome_label_rule (m : MatchRow) :
    (labelOf m = 0 ↔ m.homeWinProb > m.drawProb ∧ m.homeWinProb > m.awayWinProb) ∧
    (labelOf m = 2 ↔ m.awayWinProb > m.drawProb ∧ m.awayWinProb > m.homeWinProb) ∧
    (labelOf m = 1 ↔ ¬(m.homeWinProb > m.drawProb ∧ m.homeWinProb > m.awayWinProb) ∧
                     ¬(m.awayWinProb > m.drawProb ∧ m.awayWinProb > m.homeWinProb)) := by
  unfold labelOf
  split_ifs with h1 h2
  · refine ⟨⟨fun _ => ⟨h1.2, h1.1⟩, fun _ => rfl⟩, ?_, ?_⟩
    · constructor
      · intro h; exact absurd h (by decide)
      · rintro ⟨_, hh⟩; exact (lt_asymm h1.1 hh).elim
    · constructor
      · intro h; exact absurd h (by decide)
      · rintro ⟨hna, _⟩; exact (hna ⟨h1.2, h1.1⟩).elim
  · refine ⟨?_, ⟨fun _ => ⟨h2.2, h2.1⟩, fun _ => rfl⟩, ?_⟩
    · constructor
      · intro h; exact absurd h (by decide)
      · rintro ⟨_, hh⟩; exact (lt_asymm h2.1 hh).elim
    · constructor
      · intro h; exact absurd h (by decide)
      · rintro ⟨_, hnb⟩; exact (hnb ⟨h2.2, h2.1⟩).elim
  · refine ⟨?_, ?_, ?_⟩
    · constructor
      · intro h; exact absurd h (by decide)
      · rintro ⟨hd, hh⟩; exact (h1 ⟨hh, hd⟩).elim
    · constructor
      · intro h; exact absurd h (by decide)
      · rintro ⟨hd, hh⟩; exact (h2 ⟨hh, hd⟩).elim
    · exact ⟨fun _ => ⟨fun ⟨hd, hh⟩ => h1 ⟨hh, hd⟩, fun ⟨hd, hh⟩ => h2 ⟨hh, hd⟩⟩,
             fun _ => rfl⟩

/-- Claim C7: when no match in the history involves the team, precedes the
reference date and is finished, `calculate_team_form` returns exactly
form = 1.5, goals = 5, xg = 5.0, possession = 50. -/
theorem form_defaults (team : String) (matches_df : List MatchRow) (d n : Nat)
    (h : ∀ m ∈ matches_df,
      ¬((m.homeTeam = team ∨ m.awayTeam = team) ∧ m.date < d ∧ m.status = "FINISHED")) :
    calculate_team_form team matches_df d n = ⟨1.5, 5, 5, 50⟩ := by
  have hfil : (matches_df.filter (fun m =>
      decide ((m.homeTeam = team ∨ m.awayTeam = team) ∧
        m.date < d ∧ m.status = "FINISHED"))) = [] := by
    rw [List.filter_eq_nil_iff]
    intro m hm
    simpa using h m hm
  unfold calculate_team_form
  rw [hfil]
  simp [tailN]
  norm_num

/-- Witness for C7 at a concrete team and history: the single match neither
involves team `"X"` nor precedes the reference date. -/
theorem form_defaults_witness :
    calculate_team_form "X" [leakMatch 1] 1 5 = ⟨1.5, 5, 5, 50⟩ :=
  form_defaults "X" [leakMatch 1] 1 5 (by decide)

/-- Counterexample to C3 as stated: the 18-entry feature-name order of the
Dataset Builder is not identical to the feature-name order the inference-side
predictor consumes, since the latter has 23 entries. -/
theorem feature_order_counterexample :
    extraction_feature_names ≠ predictor_feature_names := by
  intro h
  have hl := congrArg List.length h
  simp [extraction_feature_names, predictor_feature_names] at hl

/-- Claim C3 (amended): the assembled baseline feature vector has exactly 18
entries in the stated order (entry 2 is home elo minus away elo, entry 14 the
constant 1), and this 18-name order is identical to the first 18 entries of the
predictor's 23-entry feature-name list. -/
theorem feature_order_prefix :
    predictor_feature_names.take 18 = extraction_feature_names ∧
    extraction_feature_names.length = 18 ∧
    predictor_feature_names.length = 23 ∧
    ∀ (m : MatchRow) (r : String → ℝ) (hist : List MatchRow),
      (feature_vector m r hist).length = 18 ∧
      (feature_vector m r hist)[0]? = some (r m.homeTeam) ∧
      (feature_vector m r hist)[1]? = some (r m.awayTeam) ∧
      (feature_vector m r hist)[2]? = some (r m.homeTeam - r m.awayTeam) ∧
      (feature_vector m r hist)[14]? = some 1 := by
  refine ⟨rfl, rfl, rfl, fun m r hist => ⟨?_, ?_, ?_, ?_, ?_⟩⟩ <;> simp [feature_vector]

/-- Claim C5: `prepare_training_data` returns the `none` insufficiency signal
exactly when fewer than 10 finished matches remain after filtering; with 10 or
more it returns a dataset with one feature row, one label and two regression
targets per finished match. -/
theorem insufficient_data_boundary (matches_df : List MatchRow) :
    ((matches_df.filter (fun m => decide (m.status = "FINISHED"))).length < 10 →
      prepare_training_data matches_df = none) ∧
    (10 ≤ (matches_df.filter (fun m => decide (m.status = "FINISHED"))).length →
      ∃ d, prepare_training_data matches_df = some d ∧
        d.X.length = (matches_df.filter (fun m => decide (m.status = "FINISHED"))).length ∧
        d.y_outcome.length = (matches_df.filter (fun m => decide (m.status = "FINISHED"))).length ∧
        d.y_xg_home.length = (matches_df.filter (fun m => decide (m.status = "FINISHED"))).length ∧
        d.y_xg_away.length = (matches_df.filter (fun m => decide (m.status = "FINISHED"))).length) := by
  unfold prepare_training_data
  constructor
  · intro h; rw [if_pos h]
  · intro h
    rw [if_neg (by omega)]
    exact ⟨_, rfl, by simp, by simp, by simp, by simp⟩

/-- Witness for C5 at the boundary: nine finished matches signal insufficiency,
ten build a dataset of ten rows. -/
theorem insufficient_data_boundary_witness :
    prepare_training_data nineHistory = none ∧
    ∃ d, prepare_training_data leakHistory = some d ∧
      d.X.length = (leakHistory.filter (fun m => decide (m.status = "FINISHED"))).length ∧
      d.y_outcome.length = (leakHistory.filter (fun m => decide (m.status = "FINISHED"))).length ∧
      d.y_xg_home.length = (leakHistory.filter (fun m => decide (m.status = "FINISHED"))).length ∧
      d.y_xg_away.length = (leakHistory.filter (fun m => decide (m.status = "FINISHED"))).length :=
  ⟨(insufficient_data_boundary nineHistory).1 (by decide),
   (insufficient_data_boundary leakHistory).2 (by decide)⟩

/-- Counterexample to C8 as stated: a finished match whose draw probability is
strictly greatest contributes 3 form points to the home team (its win
probability exceeds the away win probability), not the 1 point the section 4.1
rule would give. -/
theorem form_point_rule_counterexample :
    drawishMatch.drawProb > drawishMatch.homeWinProb ∧
    drawishMatch.drawProb > drawishMatch.awayWinProb ∧
    (calculate_team_form "A" [drawishMatch] 2 5).form = 3 ∧
    spec41_form_point_home drawishMatch = 1 := by
  refine ⟨by decide, by decide, ?_, by decide⟩
  norm_num [calculate_team_form, tailN, drawishMatch, form_point, List.filter]

/-- Claim C8 (amended): per-match form points compare only the team's and the
opponent's win probabilities, ignoring the draw probability. This coincides with
the section 4.1 rule whenever that rule yields a home or away win; when it
yields a draw, the home side's form point is 1 exactly when the two win
probabilities are equal. -/
theorem form_point_rule (m : MatchRow) :
    (labelOf m = 0 → form_point m.homeWinProb m.awayWinProb = 3 ∧
      form_point m.awayWinProb m.homeWinProb = 0) ∧
    (labelOf m = 2 → form_point m.homeWinProb m.awayWinProb = 0 ∧
      form_point m.awayWinProb m.homeWinProb = 3) ∧
    (labelOf m = 1 →
      (form_point m.homeWinProb m.awayWinProb = 1 ↔ m.homeWinProb = m.awayWinProb)) := by
  refine ⟨?_, ?_, ?_⟩
  · intro h0
    have hc : m.homeWinProb > m.awayWinProb ∧ m.homeWinProb > m.drawProb := by
      by_contra hc
      unfold labelOf at h0
      rw [if_neg hc] at h0
      split_ifs at h0
    exact ⟨form_point_gt hc.1, form_point_lt hc.1⟩
  · intro hL2
    have hc : m.awayWinProb > m.homeWinProb ∧ m.awayWinProb > m.drawProb := by
      unfold labelOf at hL2
      split_ifs at hL2 with ha hb
      all_goals try exact hb
      all_goals exact absurd hL2 (by decide)
    exact ⟨form_point_lt hc.1, form_point_gt hc.1⟩
  · intro _
    constructor
    · intro hfp
      by_contra hne
      rcases lt_or_gt_of_ne hne with hlt | hgt
      · rw [form_point_lt hlt] at hfp; omega
      · rw [form_point_gt hgt] at hfp; omega
    · intro he
      exact form_point_eq he

/-- Witness for C8 at concrete matches: a decisive home win gives the home side
3 points and the away side 0; a decisive away win gives the home side 0. -/
theorem form_point_rule_witness :
    (form_point mAB.homeWinProb mAB.awayWinProb = 3 ∧
     form_point mAB.awayWinProb mAB.homeWinProb = 0) ∧
    (form_point awayWinMatch.homeWinProb awayWinMatch.awayWinProb = 0 ∧
     form_point awayWinMatch.awayWinProb awayWinMatch.homeWinProb = 3) :=
  ⟨(form_point_rule mAB).1 (by decide),
   (form_point_rule awayWinMatch).2.1 (by decide)⟩

theorem h2h_filter_symm (A B : String) (hist : List MatchRow) (d : Nat) :
    hist.filter (fun m => decide (h2hCond A B d m)) =
    hist.filter (fun m => decide (h2hCond B A d m)) := by
  apply List.filter_congr
  intro m _
  apply decide_eq_decide.mpr
  unfold h2hCond
  constructor
  · rintro ⟨hp, hrest⟩; exact ⟨hp.symm, hrest⟩
  · rintro ⟨hp, hrest⟩; exact ⟨hp.symm, hrest⟩

theorem h2h_step_mirror (A B : String) (hAB : A ≠ B) (m : MatchRow)
    (hm : (m.homeTeam = A ∧ m.awayTeam = B) ∨ (m.homeTeam = B ∧ m.awayTeam = A))
    (acc1 acc2 : H2HStats)
    (h1 : acc1.home_wins = acc2.away_wins) (h2 : acc1.away_wins = acc2.home_wins)
    (h3 : acc1.draws = acc2.draws) :
    (h2h_step A acc1 m).home_wins = (h2h_step B acc2 m).away_wins ∧
    (h2h_step A acc1 m).away_wins = (h2h_step B acc2 m).home_wins ∧
    (h2h_step A acc1 m).draws = (h2h_step B acc2 m).draws := by
  unfold h2h_step
  rcases hm with ⟨hA, hB⟩ | ⟨hB, hA⟩
  · rw [if_pos hA, if_neg (show ¬m.homeTeam = B by rw [hA]; exact hAB)]
    split_ifs <;>
      first
        | (refine ⟨?_, ?_, ?_⟩ <;> simp <;> omega)
        | (exfalso; linarith)
  · rw [if_neg (show ¬m.homeTeam = A by rw [hB]; exact Ne.symm hAB), if_pos hB]
    split_ifs <;>
      first
        | (refine ⟨?_, ?_, ?_⟩ <;> simp <;> omega)
        | (exfalso; linarith)

theorem h2h_fold_mirror (A B : String) (hAB : A ≠ B) :
    ∀ (l : List MatchRow),
      (∀ m ∈ l, (m.homeTeam = A ∧ m.awayTeam = B) ∨ (m.homeTeam = B ∧ m.awayTeam = A)) →
      ∀ (acc1 acc2 : H2HStats),
        acc1.home_wins = acc2.away_wins → acc1.away_wins = acc2.home_wins →
        acc1.draws = acc2.draws →
        (l.foldl (h2h_step A) acc1).home_wins = (l.foldl (h2h_step B) acc2).away_wins ∧
        (l.foldl (h2h_step A) acc1).away_wins = (l.foldl (h2h_step B) acc2).home_wins ∧
        (l.foldl (h2h_step A) acc1).draws = (l.foldl (h2h_step B) acc2).draws := by
  intro l
  induction l with
  | nil => intro _ acc1 acc2 h1 h2 h3; exact ⟨h1, h2, h3⟩
  | cons m rest ih =>
    intro hmem acc1 acc2 h1 h2 h3
    simp only [List.foldl_cons]
    have hstep := h2h_step_mirror A B hAB m (hmem m (List.mem_cons_self m rest))
      acc1 acc2 h1 h2 h3
    exact ih (fun x hx => hmem x (List.mem_cons_of_mem m hx))
      (h2h_step A acc1 m) (h2h_step B acc2 m) hstep.1 hstep.2.1 hstep.2.2

/-- Claim C6: each historical head-to-head win is attributed to whichever of the
two query teams won that meeting, never to the home or away slot, so flipping
the query order mirrors the counts: the wins counted for the first team in
`calculate_h2h_stats A B` equal the wins counted for the second team in
`calculate_h2h_stats B A`, and conversely, with equal draw counts. -/
theorem h2h_mirror (A B : String) (hist : List MatchRow) (d : Nat) (hAB : A ≠ B) :
    (calculate_h2h_stats A B hist d).home_wins = (calculate_h2h_stats B A hist d).away_wins ∧
    (calculate_h2h_stats A B hist d).away_wins = (calculate_h2h_stats B A hist d).home_wins ∧
    (calculate_h2h_stats A B hist d).draws = (calculate_h2h_stats B A hist d).draws := by
  simp only [calculate_h2h_stats]
  rw [← h2h_filter_symm A B hist d]
  by_cases hnil : (hist.filter (fun m => decide (h2hCond A B d m))).length = 0
  · rw [if_pos hnil, if_pos hnil]
    exact ⟨rfl, rfl, rfl⟩
  · rw [if_neg hnil, if_neg hnil]
    apply h2h_fold_mirror A B hAB _ _ _ _ rfl rfl rfl
    intro m hm
    have hc := of_decide_eq_true (List.mem_filter.mp hm).2
    exact hc.1

/-- Witness for C6 at a concrete pair and history in which team `"A"` won once
at home and once away: both calls attribute both wins to `"A"`. -/
theorem h2h_mirror_witness :
    (calculate_h2h_stats "A" "B" h2hHistory 10).home_wins =
      (calculate_h2h_stats "B" "A" h2hHistory 10).away_wins ∧
    (calculate_h2h_stats "A" "B" h2hHistory 10).away_wins =
      (calculate_h2h_stats "B" "A" h2hHistory 10).home_wins ∧
    (calculate_h2h_stats "A" "B" h2hHistory 10).draws =
      (calculate_h2h_stats "B" "A" h2hHistory 10).draws :=
  h2h_mirror "A" "B" h2hHistory 10 (by decide)

theorem rpow_ten_pos (y : ℝ) : 0 < (10 : ℝ) ^ y :=
  Real.rpow_pos_of_pos (by norm_num) y

theorem expected_score_lt_one (a b : ℝ) : expected_score a b < 1 := by
  unfold expected_score
  rw [div_lt_one (by positivity)]
  linarith [rpow_ten_pos ((b - a) / 400)]

theorem expected_score_lt {a a' : ℝ} (b : ℝ) (h : a < a') :
    expected_score a b < expected_score a' b := by
  unfold expected_score
  apply one_div_lt_one_div_of_lt (by positivity)
  have : (10 : ℝ) ^ ((b - a') / 400) < (10 : ℝ) ^ ((b - a) / 400) := by
    apply Real.rpow_lt_rpow_left_iff (by norm_num : (1:ℝ) < 10) |>.mpr
    linarith
  linarith

theorem elo_step_k_factor (elo : ELOSystem) (m : MatchRow) :
    (elo_step elo m).k_factor = elo.k_factor := by
  unfold elo_step
  split_ifs <;> rfl

theorem update_ratings_def (sys : ELOSystem) (a b : String) (sa sb : ℚ) (adv : ℝ) :
    sys.update_ratings a b sa sb adv =
      (⟨sys.k_factor, sys.initial_rating, fun t =>
          if t = b then sys.ratings b + sys.k_factor *
            ((if sa > sb then (0:ℝ) else if sa < sb then 1 else 0.5) -
              (1 - expected_score (sys.ratings a + adv) (sys.ratings b)))
          else if t = a then sys.ratings a + sys.k_factor *
            ((if sa > sb then (1:ℝ) else if sa < sb then 0 else 0.5) -
              expected_score (sys.ratings a + adv) (sys.ratings b))
          else sys.ratings t⟩,
       sys.ratings a + sys.k_factor *
         ((if sa > sb then (1:ℝ) else if sa < sb then 0 else 0.5) -
           expected_score (sys.ratings a + adv) (sys.ratings b)),
       sys.ratings b + sys.k_factor *
         ((if sa > sb then (0:ℝ) else if sa < sb then 1 else 0.5) -
           (1 - expected_score (sys.ratings a + adv) (sys.ratings b)))) := by
  unfold ELOSystem.update_ratings
  split_ifs <;> rfl

theorem winner_scores_home_win (m : MatchRow)
    (hw : m.homeWinProb > m.awayWinProb) (hd : m.homeWinProb > m.drawProb) :
    winner_scores m = (2, 1) := by
  unfold winner_scores
  rw [if_pos (show m.homeWinProb > m.awayWinProb ∧ m.homeWinProb > m.drawProb from ⟨hw, hd⟩)]

theorem elo_step_home_rating (elo : ELOSystem) (m : MatchRow) (hf : m.status = "FINISHED")
    (hw : m.homeWinProb > m.awayWinProb) (hd : m.homeWinProb > m.drawProb)
    (hab : m.homeTeam ≠ m.awayTeam) :
    (elo_step elo m).ratings m.homeTeam =
      elo.ratings m.homeTeam + elo.k_factor *
        (1 - expected_score (elo.ratings m.homeTeam + 100) (elo.ratings m.awayTeam)) := by
  unfold elo_step
  rw [if_neg (by simp [hf]), winner_scores_home_win m hw hd, update_ratings_def]
  norm_num [hab]

theorem elo_step_away_rating (elo : ELOSystem) (m : MatchRow) (hf : m.status = "FINISHED")
    (hw : m.homeWinProb > m.awayWinProb) (hd : m.homeWinProb > m.drawProb) :
    (elo_step elo m).ratings m.awayTeam =
      elo.ratings m.awayTeam + elo.k_factor *
        (0 - (1 - expected_score (elo.ratings m.homeTeam + 100) (elo.ratings m.awayTeam))) := by
  unfold elo_step
  rw [if_neg (by simp [hf]), winner_scores_home_win m hw hd, update_ratings_def]
  norm_num

theorem elo_step_other_rating (elo : ELOSystem) (m : MatchRow) (t : String)
    (h1 : t ≠ m.homeTeam) (h2 : t ≠ m.awayTeam) :
    (elo_step elo m).ratings t = elo.ratings t := by
  unfold elo_step
  split_ifs with hs
  · rfl
  · rw [update_ratings_def]
    simp [h1, h2]

theorem tenpow_quarter_bounds :
    (1.7782 : ℝ) ≤ (10:ℝ) ^ ((1:ℝ)/4) ∧ (10:ℝ) ^ ((1:ℝ)/4) ≤ 1.7783 := by
  have hpos : (0:ℝ) < (10:ℝ) ^ ((1:ℝ)/4) := rpow_ten_pos _
  have hp4 : ((10:ℝ) ^ ((1:ℝ)/4)) ^ (4:ℕ) = 10 := by
    rw [← Real.rpow_natCast ((10:ℝ) ^ ((1:ℝ)/4)) 4,
        ← Real.rpow_mul (by norm_num : (0:ℝ) ≤ 10)]
    norm_num
  constructor
  · by_contra h
    push_neg at h
    have hlt : ((10:ℝ) ^ ((1:ℝ)/4)) ^ (4:ℕ) < (1.7782:ℝ) ^ (4:ℕ) :=
      pow_lt_pow_left₀ h (le_of_lt hpos) (by norm_num)
    rw [hp4] at hlt
    norm_num at hlt
  · by_contra h
    push_neg at h
    have hlt : (1.7783:ℝ) ^ (4:ℕ) < ((10:ℝ) ^ ((1:ℝ)/4)) ^ (4:ℕ) :=
      pow_lt_pow_left₀ h (by norm_num) (by norm_num)
    rw [hp4] at hlt
    norm_num at hlt

theorem update_AB_values :
    ((ELOSystem.mk0 20 1500).update_ratings "A" "B" 2 1 100).2.1 =
      1500 + 20 * (1 - 1 / (1 + ((10:ℝ) ^ ((1:ℝ)/4))⁻¹)) ∧
    ((ELOSystem.mk0 20 1500).update_ratings "A" "B" 2 1 100).2.2 =
      1500 + 20 * (0 - (1 - 1 / (1 + ((10:ℝ) ^ ((1:ℝ)/4))⁻¹))) := by
  rw [update_ratings_def]
  unfold ELOSystem.mk0 expected_score
  rw [show ((1500:ℝ) - (1500 + 100)) / 400 = -(1/4) by norm_num,
      Real.rpow_neg (by norm_num : (0:ℝ) ≤ 10)]
  norm_num

theorem update_AB_close :
    |((ELOSystem.mk0 20 1500).update_ratings "A" "B" 2 1 100).2.1 - 1507.198| ≤ 1/100 ∧
    |((ELOSystem.mk0 20 1500).update_ratings "A" "B" 2 1 100).2.2 - 1492.802| ≤ 1/100 := by
  obtain ⟨hv1, hv2⟩ := update_AB_values
  obtain ⟨hl, hu⟩ := tenpow_quarter_bounds
  have hxpos : (0:ℝ) < (10:ℝ) ^ ((1:ℝ)/4) := rpow_ten_pos _
  set x := (10:ℝ) ^ ((1:ℝ)/4) with hx
  have hx1 : (0:ℝ) < x + 1 := by linarith
  have key : 1 - 1/(1 + x⁻¹) = 1/(x + 1) := by
    rw [inv_eq_one_div]
    field_simp
  have hb1 : 20/(x+1) ≤ 7.199 := by
    rw [div_le_iff₀ hx1]
    nlinarith
  have hb2 : (7.198:ℝ) ≤ 20/(x+1) := by
    rw [le_div_iff₀ hx1]
    nlinarith
  have h20 : (20:ℝ) * (1/(x+1)) = 20/(x+1) := by ring
  constructor
  · rw [hv1, key, abs_le]
    constructor <;> nlinarith
  · rw [hv2, key, abs_le]
    constructor <;> nlinarith

/-- Claim C2: `update_ratings` computes the home expected score as
1/(1+10^((R_b - (R_a + home_advantage))/400)), assigns actual scores 1/0/0.5 to
each side by comparing the two scores, stores old stored rating plus
K times (actual minus expected) for both sides (the away side using the
complementary expected score), never persists the home advantage into the
stored rating, and on 1500 vs 1500 with K=20, advantage 100 and a 2-1 home win
yields 1507.198 and 1492.802 within 1e-2. -/
theorem elo_update_correct (sys : ELOSystem) (a b : String) (sa sb : ℚ) (adv : ℝ)
    (hab : a ≠ b) :
    (sys.update_ratings a b sa sb adv).2.1 =
      sys.ratings a + sys.k_factor *
        ((if sa > sb then (1:ℝ) else if sa < sb then 0 else 0.5) -
          1 / (1 + (10:ℝ) ^ ((sys.ratings b - (sys.ratings a + adv)) / 400))) ∧
    (sys.update_ratings a b sa sb adv).2.2 =
      sys.ratings b + sys.k_factor *
        ((if sb > sa then (1:ℝ) else if sb < sa then 0 else 0.5) -
          (1 - 1 / (1 + (10:ℝ) ^ ((sys.ratings b - (sys.ratings a + adv)) / 400)))) ∧
    (sys.update_ratings a b sa sb adv).1.ratings a = (sys.update_ratings a b sa sb adv).2.1 ∧
    (sys.update_ratings a b sa sb adv).1.ratings b = (sys.update_ratings a b sa sb adv).2.2 ∧
    |((ELOSystem.mk0 20 1500).update_ratings "A" "B" 2 1 100).2.1 - 1507.198| ≤ 1/100 ∧
    |((ELOSystem.mk0 20 1500).update_ratings "A" "B" 2 1 100).2.2 - 1492.802| ≤ 1/100 := by
  refine ⟨?_, ?_, ?_, ?_, update_AB_close.1, update_AB_close.2⟩
  · rw [update_ratings_def]
    rfl
  · rw [update_ratings_def]
    unfold expected_score
    split_ifs <;> first | rfl | (exfalso; linarith)
  · rw [update_ratings_def]
    simp [if_neg hab]
  · rw [update_ratings_def]
    simp

/-- Witness for C2 at a concrete update: two fresh teams, a 2-1 home win,
home advantage 100. -/
theorem elo_update_correct_witness :
    (((ELOSystem.mk0 20 1500).update_ratings "A" "B" 2 1 100).2.1 =
      (ELOSystem.mk0 20 1500).ratings "A" + (ELOSystem.mk0 20 1500).k_factor *
        ((if (2:ℚ) > 1 then (1:ℝ) else if (2:ℚ) < 1 then 0 else 0.5) -
          1 / (1 + (10:ℝ) ^ (((ELOSystem.mk0 20 1500).ratings "B" -
            ((ELOSystem.mk0 20 1500).ratings "A" + 100)) / 400)))) ∧
    |((ELOSystem.mk0 20 1500).update_ratings "A" "B" 2 1 100).2.1 - 1507.198| ≤ 1/100 ∧
    |((ELOSystem.mk0 20 1500).update_ratings "A" "B" 2 1 100).2.2 - 1492.802| ≤ 1/100 := by
  obtain ⟨h1, _, _, _, h5, h6⟩ :=
    elo_update_correct (ELOSystem.mk0 20 1500) "A" "B" 2 1 100 (by decide)
  exact ⟨h1, h5, h6⟩

/-- Claim C10: every `update_ratings` call conserves the sum of the two stored
ratings, because the two actual scores always sum to 1 and the home-adjusted
expected score and its complement sum to 1, so the K-scaled deltas cancel. -/
theorem rating_sum_conservation (sys : ELOSystem) (a b : String) (sa sb : ℚ) (adv : ℝ)
    (hab : a ≠ b) :
    (sys.update_ratings a b sa sb adv).1.ratings a +
      (sys.update_ratings a b sa sb adv).1.ratings b =
    sys.ratings a + sys.ratings b := by
  rw [update_ratings_def]
  simp only [if_neg hab, if_pos rfl]
  split_ifs <;> ring

/-- Witness for C10: a concrete 2-1 home win between fresh 1500-rated teams
leaves the rating sum at 3000. -/
theorem rating_sum_conservation_witness :
    ((ELOSystem.mk0 20 1500).update_ratings "A" "B" 2 1 100).1.ratings "A" +
      ((ELOSystem.mk0 20 1500).update_ratings "A" "B" 2 1 100).1.ratings "B" = 3000 := by
  rw [rating_sum_conservation (ELOSystem.mk0 20 1500) "A" "B" 2 1 100 (by decide)]
  norm_num [ELOSystem.mk0]

theorem elo_order_sensitive_core :
    calculate_elo_ratings [mAB, mAC] "B" < calculate_elo_ratings [mAC, mAB] "B" := by
  unfold calculate_elo_ratings
  simp only [List.foldl_cons, List.foldl_nil]
  have hmABf : mAB.status = "FINISHED" := rfl
  have hmABw : mAB.homeWinProb > mAB.awayWinProb := by norm_num [mAB, leakMatch]
  have hmABd : mAB.homeWinProb > mAB.drawProb := by norm_num [mAB, leakMatch]
  have hmACf : mAC.status = "FINISHED" := rfl
  have hmACw : mAC.homeWinProb > mAC.awayWinProb := by norm_num [mAC]
  have hmACd : mAC.homeWinProb > mAC.drawProb := by norm_num [mAC]
  have hL : (elo_step (elo_step (ELOSystem.mk0 20 1500) mAB) mAC).ratings "B" =
      1500 + 20 * (0 - (1 - expected_score (1500 + 100) 1500)) := by
    have hother := elo_step_other_rating (elo_step (ELOSystem.mk0 20 1500) mAB) mAC "B"
      (by decide) (by decide)
    rw [hother]
    have h := elo_step_away_rating (ELOSystem.mk0 20 1500) mAB hmABf hmABw hmABd
    simpa [mAB, leakMatch, ELOSystem.mk0] using h
  have hA1 : (elo_step (ELOSystem.mk0 20 1500) mAC).ratings "A" =
      1500 + 20 * (1 - expected_score (1500 + 100) 1500) := by
    have h := elo_step_home_rating (ELOSystem.mk0 20 1500) mAC hmACf hmACw hmACd (by decide)
    simpa [mAC, ELOSystem.mk0] using h
  have hB1 : (elo_step (ELOSystem.mk0 20 1500) mAC).ratings "B" = 1500 := by
    have h := elo_step_other_rating (ELOSystem.mk0 20 1500) mAC "B" (by decide) (by decide)
    simpa [ELOSystem.mk0] using h
  have hk1 : (elo_step (ELOSystem.mk0 20 1500) mAC).k_factor = 20 := by
    rw [elo_step_k_factor]
    rfl
  have hR : (elo_step (elo_step (ELOSystem.mk0 20 1500) mAC) mAB).ratings "B" =
      1500 + 20 * (0 - (1 - expected_score
        ((1500 + 20 * (1 - expected_score (1500 + 100) 1500)) + 100) 1500)) := by
    have h := elo_step_away_rating (elo_step (ELOSystem.mk0 20 1500) mAC) mAB
      hmABf hmABw hmABd
    rw [show mAB.awayTeam = "B" from rfl, show mAB.homeTeam = "A" from rfl] at h
    rw [h, hA1, hB1, hk1]
  rw [hL, hR]
  have hE0 := expected_score_lt_one (1500 + 100) 1500
  have hmono : expected_score (1500 + 100) 1500 <
      expected_score ((1500 + 20 * (1 - expected_score (1500 + 100) 1500)) + 100) 1500 := by
    apply expected_score_lt
    linarith
  linarith

/-- Counterexample to C9 as stated: the two-match history processed in swapped
order yields different ELO ratings, so the Dataset Builder's rating pass is not
permutation invariant and performs no internal sort. -/
theorem sorted_input_counterexample :
    ([mAB, mAC] : List MatchRow).Perm [mAC, mAB] ∧
    calculate_elo_ratings [mAB, mAC] ≠ calculate_elo_ratings [mAC, mAB] :=
  ⟨List.Perm.swap mAC mAB [],
   fun h => absurd (congrFun h "B") (ne_of_lt elo_order_sensitive_core)⟩

/-- Claim C9 (amended): `calculate_elo_ratings` folds over the rows in the
order given without sorting, and its output depends on that order: there are
histories that are permutations of each other on which it computes different
ratings. Chronological order is supplied by the fetch query, not by the core. -/
theorem elo_ratings_order_dependent :
    ∃ l1 l2 : List MatchRow, l1.Perm l2 ∧
      calculate_elo_ratings l1 ≠ calculate_elo_ratings l2 :=
  ⟨[mAB, mAC], [mAC, mAB], List.Perm.swap mAC mAB [],
   fun h => absurd (congrFun h "B") (ne_of_lt elo_order_sensitive_core)⟩

theorem elo_fold_A_increases :
    ∀ (l : List MatchRow) (elo : ELOSystem), 0 < elo.k_factor →
      (∀ m ∈ l, HomeWinAB m) →
      elo.ratings "A" ≤ (l.foldl elo_step elo).ratings "A" ∧
      (l ≠ [] → elo.ratings "A" < (l.foldl elo_step elo).ratings "A") := by
  intro l
  induction l with
  | nil =>
    intro elo _ _
    exact ⟨le_refl _, fun h => absurd rfl h⟩
  | cons m rest ih =>
    intro elo hk hmem
    obtain ⟨hf, hA, hB, hw, hd⟩ := hmem m (List.mem_cons_self m rest)
    have hab : m.homeTeam ≠ m.awayTeam := by rw [hA, hB]; decide
    have hstep : (elo_step elo m).ratings "A" =
        elo.ratings "A" + elo.k_factor *
          (1 - expected_score (elo.ratings "A" + 100) (elo.ratings "B")) := by
      have h := elo_step_home_rating elo m hf hw hd hab
      rw [hA, hB] at h
      exact h
    have hlt : elo.ratings "A" < (elo_step elo m).ratings "A" := by
      rw [hstep]
      have hE := expected_score_lt_one (elo.ratings "A" + 100) (elo.ratings "B")
      have hp := mul_pos hk (show (0:ℝ) <
        1 - expected_score (elo.ratings "A" + 100) (elo.ratings "B") by linarith)
      linarith
    have hk2 : 0 < (elo_step elo m).k_factor := by rw [elo_step_k_factor]; exact hk
    have ihres := ih (elo_step elo m) hk2 (fun x hx => hmem x (List.mem_cons_of_mem m hx))
    simp only [List.foldl_cons]
    exact ⟨le_of_lt (lt_of_lt_of_le hlt ihres.1), fun _ => lt_of_lt_of_le hlt ihres.1⟩

theorem hmem_leak : ∀ m ∈ leakHistory, HomeWinAB m := by decide

theorem hne_leak : leakHistory ≠ [] := by decide

theorem hk_leak : (0:ℝ) < (ELOSystem.mk0 20 1500).k_factor := by norm_num [ELOSystem.mk0]

theorem fold_leak :
    (ELOSystem.mk0 20 1500).ratings "A" ≤
      (leakHistory.foldl elo_step (ELOSystem.mk0 20 1500)).ratings "A" ∧
    (leakHistory ≠ [] → (ELOSystem.mk0 20 1500).ratings "A" <
      (leakHistory.foldl elo_step (ELOSystem.mk0 20 1500)).ratings "A") :=
  elo_fold_A_increases leakHistory (ELOSystem.mk0 20 1500) hk_leak hmem_leak

theorem calc_elo_def (l : List MatchRow) :
    calculate_elo_ratings l = (l.foldl elo_step (ELOSystem.mk0 20 1500)).ratings := rfl

theorem converged_A_above_initial : 1500 < calculate_elo_ratings leakHistory "A" := by
  rw [calc_elo_def]
  have h2 := fold_leak.2 hne_leak
  rw [show (ELOSystem.mk0 20 1500).ratings "A" = 1500 from rfl] at h2
  exact h2

set_option maxHeartbeats 1000000 in
/-- Claim C1 (violated by the code): on a ten-match history of finished `"A"`
home wins, the Dataset Builder puts the fully converged end-of-history rating
of `"A"` — strictly above the initial 1500 — into the home-elo slot of the
feature row of the earliest match, instead of the initial rating that
point-in-time causality requires for the earliest match. -/
theorem elo_leakage :
    ∃ d, prepare_training_data leakHistory = some d ∧
      d.X.head? = some (feature_vector (leakMatch 1)
        (calculate_elo_ratings leakHistory) leakHistory) ∧
      (feature_vector (leakMatch 1) (calculate_elo_ratings leakHistory)
        leakHistory).head? = some (calculate_elo_ratings leakHistory "A") ∧
      1500 < calculate_elo_ratings leakHistory "A" := by
  have hfil : leakHistory.filter (fun m => decide (m.status = "FINISHED")) = leakHistory := by
    decide
  simp only [prepare_training_data, hfil]
  rw [if_neg (show ¬(leakHistory.length < 10) from by decide)]
  refine ⟨_, rfl, ?_, ?_, converged_A_above_initial⟩
  · rw [List.head?_map, show leakHistory.head? = some (leakMatch 1) from by decide]
    rfl
  · simp [feature_vector, leakMatch]

end UCL
